import Mathlib

/-!
# Verification of the FIRMS Sicily hotspot-map pipeline

Shallow embedding of `src/app.py` (single-file Streamlit application) and
proofs of the spec's testable properties.  Python floats are modelled as
rationals (`ℚ`); NaN-carrying values are modelled as `Option ℚ` where the
NaN behaviour matters.  Timestamps are modelled both as a rational number
of seconds (for the age arithmetic in `color_by_age` / `stroke_by_age`)
and as calendar components (for parsing and string formatting).
-/

set_option autoImplicit false
set_option maxRecDepth 8000

namespace FireApp

/-- `np.clip(x, lo, hi)`, which numpy documents as `min(max(x, lo), hi)`. -/
def npClip (x lo hi : ℚ) : ℚ := min (max x lo) hi

/-- Calendar timestamp components, the observable content of a pandas
timestamp as used by the app (`%Y-%m-%d %H:%M`-level granularity). -/
structure DateTime where
  year : ℕ
  month : ℕ
  day : ℕ
  hour : ℕ
  minute : ℕ
deriving DecidableEq, Repr

/-- One row of the normalized dataframe built by `get_firms_df`: the CSV
columns the app reads plus the two derived timestamp columns.  `acq_ts` is
the UTC acquisition timestamp as seconds (the representation subtracted
from `datetime.now(timezone.utc)` in the age computations); it denotes the
same instant as `acq_datetime_utc`. -/
structure HotspotRow where
  latitude : ℚ
  longitude : ℚ
  bright_ti4 : ℚ
  frp : ℚ
  scan : ℚ
  track : ℚ
  satellite : String
  confidence : String
  acq_ts : ℚ
  acq_datetime_utc : DateTime
  acq_datetime_local : DateTime
deriving DecidableEq, Repr

/-- `color_by_age` (app.py:72-81).  `now` and `ts` are seconds; `hrs` is
the age in hours at render time. -/
def color_by_age (now ts : ℚ) : String :=
  let hrs := (now - ts) / 3600
  if hrs ≤ 6 then "red"
  else if hrs ≤ 12 then "orange"
  else if hrs ≤ 36 then "yellow"
  else "gray"

/-- `stroke_by_age` (app.py:122-124), the border-color function actually
used by the rendering loop. -/
def stroke_by_age (now ts : ℚ) : String :=
  let hrs := (now - ts) / 3600
  if hrs ≤ 6 then "red" else if hrs ≤ 12 then "orange" else "gray"

/-- `icon_by_stage` (app.py:83-92): Font Awesome icon name from FRP and
brightness. -/
def icon_by_stage (frp brightness : ℚ) : Option String :=
  if 50 ≤ frp ∨ 367 ≤ brightness then some "fire"
  else if 10 ≤ frp then some "triangle-exclamation"
  else if 0 < frp ∨ 330 ≤ brightness then some "temperature-high"
  else none

/-- `icon_size_by_scan_track` (app.py:94-101): (width, height) from the
scan/track footprint. -/
def icon_size_by_scan_track (scan track : ℚ) : ℚ × ℚ :=
  let avg := (scan + track) / 2
  if 0.006 ≤ avg then (35, 35)
  else if 0.003 ≤ avg then (25, 25)
  else (15, 15)

/-- The FIRST definition of `radius_by_intensity` (app.py:103-108): the
composite-score radius.  In the Python module this binding is later
shadowed by the second definition below and is never called. -/
def radius_by_intensity_v1 (row : HotspotRow) : ℚ :=
  let b_norm := npClip ((row.bright_ti4 - 300) / 100) 0 1
  let frp_norm := npClip (row.frp / 50) 0 1
  let fp_norm := npClip (((row.scan + row.track) / 2) / 0.005) 0 1
  let score := (b_norm + frp_norm + fp_norm) / 3
  6 + score * 14

/-- The SECOND definition of `radius_by_intensity` (app.py:127-129).  It
rebinds the same Python name before the rendering loop runs, so this is
the radius function in effect for every rendered marker. -/
def radius_by_intensity (row : HotspotRow) : ℚ :=
  let base := npClip (row.frp / 10) 0.5 10
  base + 5

/-! ## String formatting (f-strings and strftime as used by the app) -/

/-- Left-pad the decimal digits of `n` with zeros to width `w`
(`%02d`-style padding used by strftime fields). -/
def padNat (w : ℕ) (n : ℕ) : String :=
  let s := toString n
  if s.length < w then String.mk (List.replicate (w - s.length) '0') ++ s else s

/-- Round to the nearest integer, ties to even: the rounding used by
Python's `round` and by `format(x, '.1f')` on decimal-exact values. -/
def roundHalfEven (q : ℚ) : ℤ :=
  let f := ⌊q⌋
  let frac := q - f
  if frac < 1/2 then f
  else if 1/2 < frac then f + 1
  else if Even f then f else f + 1

/-- Python `f"{x:.1f}"` on a decimal-exact value. -/
def fmt1 (q : ℚ) : String :=
  let n := roundHalfEven (q * 10)
  let m := n.natAbs
  let s := toString (m / 10) ++ "." ++ toString (m % 10)
  if n < 0 then "-" ++ s else s

/-- Python `f"{x:.4f}"` on a decimal-exact value. -/
def fmt4 (q : ℚ) : String :=
  let n := roundHalfEven (q * 10000)
  let m := n.natAbs
  let s := toString (m / 10000) ++ "." ++ padNat 4 (m % 10000)
  if n < 0 then "-" ++ s else s

/-- Number of decimal digits needed to write `q` exactly (with `fuel`
bounding the search; 17 suffices for every value a float64 holds). -/
def decDigits : ℕ → ℚ → ℕ
  | 0, _ => 0
  | fuel + 1, q => if q.den = 1 then 0 else 1 + decDigits fuel (q * 10)

/-- Python `str()` of a float that holds a short decimal value (float64
repr prints the shortest round-tripping decimal, which for the CSV-parsed
decimal inputs of this app is the decimal itself; integral floats print a
trailing `.0`). -/
def ratStr (q : ℚ) : String :=
  let k := decDigits 17 q
  let m := (⌊q * 10 ^ k⌋).natAbs
  let frac := if k = 0 then "0" else padNat k (m % 10 ^ k)
  (if q < 0 then "-" else "") ++ toString (m / 10 ^ k) ++ "." ++ frac

/-- strftime `%H:%M`. -/
def fmtHM (t : DateTime) : String := padNat 2 t.hour ++ ":" ++ padNat 2 t.minute

/-- strftime `%d/%m %H:%M` (the app's local-time format). -/
def fmtDMHM (t : DateTime) : String :=
  padNat 2 t.day ++ "/" ++ padNat 2 t.month ++ " " ++ fmtHM t

/-- strftime `%Y-%m-%d %H:%M` (the app's UTC format). -/
def fmtYMDHM (t : DateTime) : String :=
  padNat 4 t.year ++ "-" ++ padNat 2 t.month ++ "-" ++ padNat 2 t.day ++ " " ++ fmtHM t

/-- The pieces concatenated by the tooltip f-string (app.py:140). -/
def tooltipParts (r : HotspotRow) : List String :=
  ["FRP ", fmt1 r.frp, " MW • ", fmtHM r.acq_datetime_local]

/-- The pieces concatenated by the popup f-string (app.py:141-147),
literal HTML text included. -/
def popupParts (r : HotspotRow) : List String :=
  ["\n        <b>🔥 Intensità:</b> ", fmt1 r.frp,
   " MW<br>\n        <b>🌡 Temperatura:</b> ", ratStr r.bright_ti4,
   " K<br>\n        <b>🛰 Satellite:</b> ", r.satellite,
   "<br>\n        <b>🕓 Rilevato:</b> ", fmtDMHM r.acq_datetime_local,
   "<br>\n        <b>🎯 Confidenza:</b> ", r.confidence,
   "\n        "]

/-- Concatenation of string pieces (the f-string itself). -/
def joinStr (l : List String) : String := l.foldr (fun a b => a ++ b) ""

def tooltipOf (r : HotspotRow) : String := joinStr (tooltipParts r)

def popupOf (r : HotspotRow) : String := joinStr (popupParts r)

/-- The sidebar details table (app.py:204-212): `Campo`/`Valore` pairs.
The brightness cell holds the raw float, rendered by its `str()`. -/
def detailsOf (r : HotspotRow) : List (String × String) :=
  [("FRP (MW)", fmt1 r.frp), ("Brightness (K)", ratStr r.bright_ti4),
   ("Scan °", fmt4 r.scan), ("Track °", fmt4 r.track),
   ("Satellite", r.satellite), ("Confidenza", r.confidence),
   ("UTC", fmtYMDHM r.acq_datetime_utc), ("Locale", fmtDMHM r.acq_datetime_local)]

/-! ## The rendering loop (app.py:131-148) -/

/-- One `folium.CircleMarker` as built in the loop.  `fill_color_frp` is
the frp value handed to the (external) branca colormap. -/
structure CircleMarker where
  location : ℚ × ℚ
  radius : ℚ
  color : String
  fill_color_frp : ℚ
  tooltip : String
  popup : String
deriving DecidableEq, Repr

/-- The body of the `for _, r in df.iterrows()` loop.  `radius` calls the
name `radius_by_intensity`, which at loop time is bound to the second
definition (app.py:127-129). -/
def renderMarker (now : ℚ) (r : HotspotRow) : CircleMarker :=
  { location := (r.latitude, r.longitude)
    radius := radius_by_intensity r
    color := stroke_by_age now r.acq_ts
    fill_color_frp := r.frp
    tooltip := tooltipOf r
    popup := popupOf r }

/-- The whole rendering loop: one marker per dataframe row, in order. -/
def renderMap (now : ℚ) (df : List HotspotRow) : List CircleMarker :=
  df.map (renderMarker now)

/-- The caller's guard (app.py:66-68): `if df.empty: st.warning(...);
st.stop()` — on an empty dataset the script stops and the map body is
never rendered. -/
def renderApp (now : ℚ) (df : List HotspotRow) : Option (List CircleMarker) :=
  if df.isEmpty then none else some (renderMap now df)

/-! ## NaN-aware layer

Pandas represents a missing numeric cell as float NaN.  A possibly-NaN
float is `Option ℚ` (`none` = NaN): arithmetic and `np.clip` propagate
NaN, every ordered comparison against NaN is `False`. -/

/-- A float that may be NaN. -/
abbrev NF := Option ℚ

/-- Float addition: NaN-propagating. -/
def nfAdd : NF → NF → NF
  | some a, some b => some (a + b)
  | _, _ => none

/-- Subtraction of a constant: NaN-propagating. -/
def nfSubC (x : NF) (c : ℚ) : NF := x.map (fun q => q - c)

/-- Division by a nonzero constant: NaN-propagating. -/
def nfDivC (x : NF) (c : ℚ) : NF := x.map (fun q => q / c)

/-- `np.clip` propagates NaN (documented numpy behaviour). -/
def nfClip (x : NF) (lo hi : ℚ) : NF := x.map (fun q => npClip q lo hi)

/-- Python `c <= x` on floats: `False` whenever `x` is NaN. -/
def nfLe (c : ℚ) (x : NF) : Bool :=
  match x with
  | none => false
  | some q => decide (c ≤ q)

/-- Python `c < x` on floats: `False` whenever `x` is NaN. -/
def nfLt (c : ℚ) (x : NF) : Bool :=
  match x with
  | none => false
  | some q => decide (c < q)

/-- `icon_by_stage` on possibly-NaN inputs. -/
def icon_by_stage_nan (frp brightness : NF) : Option String :=
  if nfLe 50 frp || nfLe 367 brightness then some "fire"
  else if nfLe 10 frp then some "triangle-exclamation"
  else if nfLt 0 frp || nfLe 330 brightness then some "temperature-high"
  else none

/-- `icon_size_by_scan_track` on possibly-NaN inputs. -/
def icon_size_by_scan_track_nan (scan track : NF) : ℚ × ℚ :=
  let avg := nfDivC (nfAdd scan track) 2
  if nfLe 0.006 avg then (35, 35)
  else if nfLe 0.003 avg then (25, 25)
  else (15, 15)

/-- The applied (second) `radius_by_intensity` on a possibly-NaN frp. -/
def radius_by_intensity_nan (frp : NF) : NF :=
  nfAdd (nfClip (nfDivC frp 10) 0.5 10) (some 5)

/-- The first (shadowed) `radius_by_intensity` on possibly-NaN inputs. -/
def radius_by_intensity_v1_nan (bright frp scan track : NF) : NF :=
  let b_norm := nfClip (nfDivC (nfSubC bright 300) 100) 0 1
  let frp_norm := nfClip (nfDivC frp 50) 0 1
  let fp_norm := nfClip (nfDivC (nfDivC (nfAdd scan track) 2) 0.005) 0 1
  let score := nfDivC (nfAdd (nfAdd b_norm frp_norm) fp_norm) 3
  score.map (fun s => 6 + s * 14)

/-- A pandas row (`Series`) as a label → cell association list; a cell may
be NaN.  Indexing a label that is not present raises `KeyError`. -/
abbrev SeriesRow := List (String × NF)

/-- `r[label]` on a pandas Series: the value, or a raised `KeyError`. -/
def seriesGet (r : SeriesRow) (label : String) : Except String NF :=
  match r.find? (fun p => p.1 == label) with
  | some p => Except.ok p.2
  | none => Except.error ("KeyError: " ++ label)

/-- The applied `radius_by_intensity` as executed on a pandas row: the
`row["frp"]` access happens before any arithmetic, so a row with no `frp`
label raises `KeyError` out of the function. -/
def radius_by_intensity_series (row : SeriesRow) : Except String NF :=
  match seriesGet row "frp" with
  | Except.error e => Except.error e
  | Except.ok frp => Except.ok (nfAdd (nfClip (nfDivC frp 10) 0.5 10) (some 5))

/-! ## Record normalizer (get_firms_df, app.py:54-62) -/

/-- `str.zfill(w)` on an unsigned digit string. -/
def zfill (w : ℕ) (s : String) : String :=
  if s.length < w then String.mk (List.replicate (w - s.length) '0') ++ s else s

/-- The numeric value of a list of decimal digit characters, `none` if a
character is not a digit. -/
def parseDigits (cs : List Char) : Option ℕ :=
  cs.foldl
    (fun acc c =>
      match acc with
      | some a => if c.isDigit then some (a * 10 + (c.toNat - 48)) else none
      | none => none)
    (some 0)

def isLeapYear (y : ℕ) : Bool :=
  (y % 4 == 0 && y % 100 != 0) || y % 400 == 0

def daysInMonth (y m : ℕ) : ℕ :=
  if m = 2 then (if isLeapYear y then 29 else 28)
  else if m = 4 ∨ m = 6 ∨ m = 9 ∨ m = 11 then 30
  else 31

/-- `pd.to_datetime(acq_date + " " + str(acq_time).zfill(4),
format="%Y-%m-%d %H%M")` (app.py:57-60): strict fixed-width parse of the
date and the zero-padded 4-digit time, `none` on any malformed input. -/
def parse_acq_datetime (acq_date acq_time : String) : Option DateTime :=
  let t := zfill 4 acq_time
  match acq_date.data, t.data with
  | [y1, y2, y3, y4, c1, m1, m2, c2, d1, d2], [h1, h2, n1, n2] =>
    if c1 = '-' ∧ c2 = '-' then
      match parseDigits [y1, y2, y3, y4], parseDigits [m1, m2],
            parseDigits [d1, d2], parseDigits [h1, h2], parseDigits [n1, n2] with
      | some y, some mo, some d, some h, some mi =>
        if 1 ≤ mo ∧ mo ≤ 12 ∧ 1 ≤ d ∧ d ≤ daysInMonth y mo ∧ h ≤ 23 ∧ mi ≤ 59 then
          some ⟨y, mo, d, h, mi⟩
        else none
      | _, _, _, _, _ => none
    else none
  | _, _ => none

/-- Day of week (0 = Sunday), Sakamoto's method. -/
def dayOfWeek (y m d : ℕ) : ℕ :=
  let t := [0, 3, 2, 5, 0, 3, 5, 1, 4, 6, 2, 4]
  let y' := if m < 3 then y - 1 else y
  (y' + y' / 4 - y' / 100 + y' / 400 + t.getD (m - 1) 0 + d) % 7

/-- Day of month of the last Sunday of month `m` of year `y`. -/
def lastSunday (y m : ℕ) : ℕ :=
  let last := daysInMonth y m
  last - dayOfWeek y m last

/-- Modelled from the spec: the `Europe/Rome` conversion is performed by
`pandas.tz_convert("Europe/Rome")` via the IANA tz database, which is not
part of this repository.  Spec §4.2: "Local timestamp is UTC converted to
Europe/Rome, honoring DST rules for that date."  Europe/Rome follows the
EU rule: CEST (UTC+2) between 01:00 UTC of the last Sunday of March and
01:00 UTC of the last Sunday of October, CET (UTC+1) otherwise.  The
argument is a UTC timestamp. -/
def isCEST (t : DateTime) : Bool :=
  if 4 ≤ t.month ∧ t.month ≤ 9 then true
  else if t.month = 3 then
    let ls := lastSunday t.year 3
    decide (ls < t.day) || (decide (t.day = ls) && decide (1 ≤ t.hour))
  else if t.month = 10 then
    let ls := lastSunday t.year 10
    decide (t.day < ls) || (decide (t.day = ls) && decide (t.hour < 1))
  else false

/-- Add `mins` minutes (`mins < 1440`, enough for a timezone offset) to a
calendar timestamp, rolling over at most one day. -/
def addMinutes (t : DateTime) (mins : ℕ) : DateTime :=
  let total := t.hour * 60 + t.minute + mins
  let h := total % 1440 / 60
  let mi := total % 60
  if total < 1440 then ⟨t.year, t.month, t.day, h, mi⟩
  else if t.day < daysInMonth t.year t.month then ⟨t.year, t.month, t.day + 1, h, mi⟩
  else if t.month < 12 then ⟨t.year, t.month + 1, 1, h, mi⟩
  else ⟨t.year + 1, 1, 1, h, mi⟩

/-- Modelled from the spec (see `isCEST`): `tz_convert("Europe/Rome")` of
a UTC timestamp. -/
def tz_convert_rome (t : DateTime) : DateTime :=
  addMinutes t (if isCEST t then 120 else 60)

/-! ## get_firms_df: schema guard and per-row normalization -/

/-- A raw CSV row, keyed by column name (cells as text). -/
abbrev RawRow := List (String × String)

/-- The result of `pd.read_csv` on the fetched payload. -/
structure RawTable where
  columns : List String
  rows : List RawRow
deriving Repr

/-- `{"acq_date", "acq_time"} - set(df.columns)` is nonempty
(app.py:55). -/
def required_cols_missing (cols : List String) : Bool :=
  !(cols.contains "acq_date") || !(cols.contains "acq_time")

/-- Cell lookup in a raw row. -/
def lookupStr (r : RawRow) (k : String) : Option String :=
  (r.find? (fun p => p.1 == k)).map (fun p => p.2)

/-- Derivation of the two timestamp columns for one row (app.py:57-61):
strict parse to a UTC timestamp, then the Europe/Rome conversion. -/
def normalize_row (r : RawRow) : Option (DateTime × DateTime) :=
  match lookupStr r "acq_date", lookupStr r "acq_time" with
  | some d, some tm =>
    match parse_acq_datetime d tm with
    | some utc => some (utc, tz_convert_rome utc)
    | none => none
  | _, _ => none

/-- The body of `get_firms_df` after the HTTP fetch (the fetch itself is
`requests.get`, external I/O; its parsed CSV is this function's
argument).  An empty dataframe or a missing required column returns an
explicitly empty dataframe (app.py:55-56); otherwise the two timestamp
columns are derived, and `pd.to_datetime` with a strict format raises
(`Except.error`) if any row is malformed. -/
def get_firms_df (t : RawTable) : Except String (List (RawRow × DateTime × DateTime)) :=
  if t.rows.isEmpty || required_cols_missing t.columns then Except.ok []
  else
    match t.rows.mapM normalize_row with
    | some parsed => Except.ok ((t.rows.zip parsed).map (fun p => (p.1, p.2.1, p.2.2)))
    | none => Except.error "ValueError: time data does not match format"

/-! ## Retrieval cache

`get_firms_df` is wrapped by `@st.cache_data(ttl=CACHE_HOURS * 3600)`
(app.py:48).  The memoization itself is implemented inside Streamlit, not
in this repository, so it is modelled from the spec (§4.1). -/

/-- Modelled from the spec: the cache state kept by
`st.cache_data` — one entry per parameter fingerprint with its fetch
timestamp — plus the app's fetch counter (`st.session_state.api_calls`,
app.py:46,53, incremented only when the wrapped body actually runs). -/
structure CacheState (K D : Type) where
  entries : List (K × ℚ × D)
  api_calls : ℕ

/-- Entry lookup by parameter fingerprint. -/
def cacheLookup {K D : Type} [DecidableEq K] (st : CacheState K D) (k : K) :
    Option (ℚ × D) :=
  (st.entries.find? (fun e => decide (e.1 = k))).map (fun e => e.2)

/-- Modelled from the spec (§4.1): cached retrieval.  If a non-expired
entry for the key exists and no manual refresh is forced, its dataset is
returned with no fetch; otherwise `fetch` runs once, the entry is
replaced, and the call counter increments. -/
def get_dataset {K D : Type} [DecidableEq K] (fetch : K → D) (ttl : ℚ)
    (st : CacheState K D) (k : K) (now : ℚ) (force : Bool) :
    D × CacheState K D :=
  let doFetch : D × CacheState K D :=
    let d := fetch k
    (d, ⟨(k, now, d) :: st.entries.filter (fun e => decide (e.1 ≠ k)),
         st.api_calls + 1⟩)
  match cacheLookup st k with
  | some (t, d) => if force = false ∧ now - t < ttl then (d, st) else doFetch
  | none => doFetch

/-! ## Selection resolver (app.py:199-203) -/

/-- `round(x, 5)` / `Series.round(5)`: round to 5 decimal places, ties to
even. -/
def round5 (q : ℚ) : ℚ := roundHalfEven (q * 100000) / 100000

/-- The row filter of app.py:201 against an already-rounded click
coordinate pair. -/
def click_matches (lat_c lon_c : ℚ) (r : HotspotRow) : Prop :=
  round5 r.latitude = lat_c ∧ round5 r.longitude = lon_c

instance (lat_c lon_c : ℚ) (r : HotspotRow) :
    Decidable (click_matches lat_c lon_c r) :=
  inferInstanceAs (Decidable (And _ _))

/-- Click handling (app.py:200-203): round the clicked coordinates to 5
decimals, filter the dataframe on rounded-coordinate equality, take
`iloc[0]` of the selection if it is nonempty. -/
def resolve_click (df : List HotspotRow) (clickLat clickLng : ℚ) :
    Option HotspotRow :=
  let lat_c := round5 clickLat
  let lon_c := round5 clickLng
  df.find? (fun r => decide (click_matches lat_c lon_c r))

/-! ## Substring machinery (for statements about rendered text) -/

/-- `needle` occurs contiguously in `hay`. -/
def strContains (hay needle : String) : Prop :=
  ∃ pre suf, hay = pre ++ needle ++ suf

/-- Executable check: `small` is an initial segment of `big`. -/
def leadsB : List Char → List Char → Bool
  | [], _ => true
  | _ :: _, [] => false
  | a :: as, b :: bs => a == b && leadsB as bs

/-- Executable substring check. -/
def containsSubB : List Char → List Char → Bool
  | needle, [] => leadsB needle []
  | needle, c :: cs => leadsB needle (c :: cs) || containsSubB needle cs

/-- Executable form of `strContains`. -/
def strContainsB (hay needle : String) : Bool :=
  containsSubB needle.data hay.data

/-! ## Concrete sample data -/

/-- A concrete normalized record: a hotspot at (37.5, 14.0) acquired
2024-07-01 09:30 UTC (11:30 Europe/Rome). -/
def exampleRow : HotspotRow :=
  { latitude := 37.5
    longitude := 14
    bright_ti4 := 340.2
    frp := 12.3
    scan := 0.3812
    track := 0.5921
    satellite := "N"
    confidence := "n"
    acq_ts := 1719826200
    acq_datetime_utc := ⟨2024, 7, 1, 9, 30⟩
    acq_datetime_local := ⟨2024, 7, 1, 11, 30⟩ }

/-! ## Age-tier partition (spec §4.3) -/

/-- The 6/12/36-hour age partition named by the spec, each boundary closed
on the upper bound: tier 0 is the most urgent (age ≤ 6h), then (6, 12],
(12, 36], (36, ∞). -/
def ageTier (hrs : ℚ) : ℕ :=
  if hrs ≤ 6 then 0 else if hrs ≤ 12 then 1 else if hrs ≤ 36 then 2 else 3

/-- The color `color_by_age` assigns to each age tier. -/
def colorOfTier : ℕ → String
  | 0 => "red"
  | 1 => "orange"
  | 2 => "yellow"
  | _ => "gray"

/-- The color `stroke_by_age` assigns to each age tier (it merges the two
oldest tiers into "gray"). -/
def strokeOfTier : ℕ → String
  | 0 => "red"
  | 1 => "orange"
  | _ => "gray"

end FireApp

namespace FireApp

/-! # Theorems -/

/-! ## Helper lemmas -/

theorem npClip_le_hi (x lo hi : ℚ) : npClip x lo hi ≤ hi :=
  min_le_right _ _

theorem lo_le_npClip (x lo hi : ℚ) (h : lo ≤ hi) : lo ≤ npClip x lo hi :=
  le_min (le_max_right _ _) h

theorem npClip_mono {x y : ℚ} (lo hi : ℚ) (h : x ≤ y) :
    npClip x lo hi ≤ npClip y lo hi :=
  min_le_min (max_le_max h le_rfl) le_rfl

theorem color_by_age_eq_tier (now ts : ℚ) :
    color_by_age now ts = colorOfTier (ageTier ((now - ts) / 3600)) := by
  simp only [color_by_age, ageTier]
  split_ifs <;> rfl

theorem stroke_by_age_eq_tier (now ts : ℚ) :
    stroke_by_age now ts = strokeOfTier (ageTier ((now - ts) / 3600)) := by
  simp only [stroke_by_age, ageTier]
  split_ifs <;> rfl

/-- An unfolded form of the first (composite-score) radius definition. -/
theorem radius_v1_eq (row : HotspotRow) :
    radius_by_intensity_v1 row =
      6 + ((npClip ((row.bright_ti4 - 300) / 100) 0 1
            + npClip (row.frp / 50) 0 1
            + npClip (((row.scan + row.track) / 2) / 0.005) 0 1) / 3) * 14 := rfl

/-! ## Claim theorems -/

/-- C1: For every acquisition timestamp, the color tier assigned by the
age-to-color classifiers (`color_by_age` and `stroke_by_age`) is
determined solely by the age in hours at render time, partitioned at the
boundaries 6, 12 and 36 hours with each boundary closed on the upper
bound: any two ages falling in the same tier receive the identical color,
and an age of exactly 6.0 hours lands in the most urgent tier ("red" for
both functions). -/
theorem age_color_tier_partition (now ts now' ts' : ℚ)
    (h : ageTier ((now - ts) / 3600) = ageTier ((now' - ts') / 3600)) :
    (color_by_age now ts = color_by_age now' ts'
      ∧ stroke_by_age now ts = stroke_by_age now' ts')
    ∧ ((now - ts) / 3600 = 6 →
        ageTier ((now - ts) / 3600) = 0 ∧ color_by_age now ts = "red"
          ∧ stroke_by_age now ts = "red") := by
  refine ⟨⟨?_, ?_⟩, ?_⟩
  · rw [color_by_age_eq_tier, color_by_age_eq_tier, h]
  · rw [stroke_by_age_eq_tier, stroke_by_age_eq_tier, h]
  · intro h6
    have ht : ageTier ((now - ts) / 3600) = 0 := by rw [h6]; norm_num [ageTier]
    exact ⟨ht, by rw [color_by_age_eq_tier, ht]; rfl,
      by rw [stroke_by_age_eq_tier, ht]; rfl⟩

theorem age_color_tier_partition_witness :
    ageTier ((21600 - 0) / 3600) = ageTier ((3600 - 0) / 3600)
    ∧ color_by_age 21600 0 = color_by_age 3600 0
    ∧ (21600 - (0 : ℚ)) / 3600 = 6
    ∧ color_by_age 21600 0 = "red" :=
  ⟨by with_unfolding_all decide,
   (age_color_tier_partition 21600 0 3600 0 (by with_unfolding_all decide)).1.1,
   by with_unfolding_all decide,
   ((age_color_tier_partition 21600 0 3600 0 (by with_unfolding_all decide)).2
     (by with_unfolding_all decide)).2.1⟩

/-- C2: The composite-score marker size `radius_by_intensity_v1` is
monotonically non-decreasing in brightness, in frp and in the average
footprint, always lies within [6, 20] whatever the input magnitudes, and
a brightness of 1000 K contributes exactly as much as 400 K (the
normalization saturates instead of extrapolating). -/
theorem radius_v1_monotone_bounded (row row' : HotspotRow) :
    (row.frp = row'.frp → row.scan = row'.scan → row.track = row'.track →
      row.bright_ti4 ≤ row'.bright_ti4 →
      radius_by_intensity_v1 row ≤ radius_by_intensity_v1 row')
    ∧ (row.bright_ti4 = row'.bright_ti4 → row.scan = row'.scan →
        row.track = row'.track → row.frp ≤ row'.frp →
        radius_by_intensity_v1 row ≤ radius_by_intensity_v1 row')
    ∧ (row.bright_ti4 = row'.bright_ti4 → row.frp = row'.frp →
        (row.scan + row.track) / 2 ≤ (row'.scan + row'.track) / 2 →
        radius_by_intensity_v1 row ≤ radius_by_intensity_v1 row')
    ∧ (6 ≤ radius_by_intensity_v1 row ∧ radius_by_intensity_v1 row ≤ 20)
    ∧ (row.bright_ti4 = 1000 → row'.bright_ti4 = 400 →
        row.frp = row'.frp → row.scan = row'.scan → row.track = row'.track →
        radius_by_intensity_v1 row = radius_by_intensity_v1 row') := by
  refine ⟨?_, ?_, ?_, ?_, ?_⟩
  · intro h1 h2 h3 h4
    rw [radius_v1_eq, radius_v1_eq, h1, h2, h3]
    have := npClip_mono (x := (row.bright_ti4 - 300) / 100)
      (y := (row'.bright_ti4 - 300) / 100) 0 1 (by linarith)
    linarith
  · intro h1 h2 h3 h4
    rw [radius_v1_eq, radius_v1_eq, h1, h2, h3]
    have := npClip_mono (x := row.frp / 50) (y := row'.frp / 50) 0 1
      (by linarith)
    linarith
  · intro h1 h2 h3
    rw [radius_v1_eq, radius_v1_eq, h1, h2]
    have := npClip_mono (x := ((row.scan + row.track) / 2) / 0.005)
      (y := ((row'.scan + row'.track) / 2) / 0.005) 0 1
      (by rw [div_le_div_iff_of_pos_right (by norm_num)]; exact h3)
    linarith
  · have hb0 := lo_le_npClip ((row.bright_ti4 - 300) / 100) 0 1 (by norm_num)
    have hb1 := npClip_le_hi ((row.bright_ti4 - 300) / 100) 0 1
    have hf0 := lo_le_npClip (row.frp / 50) 0 1 (by norm_num)
    have hf1 := npClip_le_hi (row.frp / 50) 0 1
    have hp0 := lo_le_npClip (((row.scan + row.track) / 2) / 0.005) 0 1 (by norm_num)
    have hp1 := npClip_le_hi (((row.scan + row.track) / 2) / 0.005) 0 1
    rw [radius_v1_eq]
    exact ⟨by linarith, by linarith⟩
  · intro h1 h2 h3 h4 h5
    rw [radius_v1_eq, radius_v1_eq, h1, h2, h3, h4, h5]
    norm_num [npClip]

theorem radius_v1_monotone_bounded_witness :
    exampleRow.bright_ti4 ≤ ({ exampleRow with bright_ti4 := 1000 } : HotspotRow).bright_ti4
    ∧ radius_by_intensity_v1 exampleRow
        ≤ radius_by_intensity_v1 { exampleRow with bright_ti4 := 1000 }
    ∧ 6 ≤ radius_by_intensity_v1 exampleRow
    ∧ radius_by_intensity_v1 exampleRow ≤ 20 :=
  ⟨by with_unfolding_all decide,
   (radius_v1_monotone_bounded exampleRow { exampleRow with bright_ti4 := 1000 }).1
     rfl rfl rfl (by with_unfolding_all decide),
   (radius_v1_monotone_bounded exampleRow exampleRow).2.2.2.1.1,
   (radius_v1_monotone_bounded exampleRow exampleRow).2.2.2.1.2⟩

/-- C3: The radius actually applied to every rendered marker is
`clip(frp / 10, 0.5, 10) + 5`: it depends only on the record's frp field,
and always lies in [5.5, 15] — the rendering loop sees the second
`radius_by_intensity` binding, which shadows the composite-score one. -/
theorem rendered_radius_props (now : ℚ) (df : List HotspotRow)
    (m : CircleMarker) (hm : m ∈ renderMap now df) :
    (5.5 ≤ m.radius ∧ m.radius ≤ 15)
    ∧ ∃ row ∈ df, m = renderMarker now row
        ∧ m.radius = npClip (row.frp / 10) 0.5 10 + 5
        ∧ ∀ row' : HotspotRow, row'.frp = row.frp →
            radius_by_intensity row' = m.radius := by
  obtain ⟨row, hrow, rfl⟩ := List.mem_map.mp hm
  have hradius : (renderMarker now row).radius = npClip (row.frp / 10) 0.5 10 + 5 := rfl
  refine ⟨?_, row, hrow, rfl, hradius, ?_⟩
  · rw [hradius]
    have h1 := lo_le_npClip (row.frp / 10) 0.5 10 (by norm_num)
    have h2 := npClip_le_hi (row.frp / 10) 0.5 10
    constructor <;> linarith
  · intro row' h
    show npClip (row'.frp / 10) 0.5 10 + 5 = (renderMarker now row).radius
    rw [h, hradius]

theorem rendered_radius_props_witness :
    renderMarker 0 exampleRow ∈ renderMap 0 [exampleRow]
    ∧ 5.5 ≤ (renderMarker 0 exampleRow).radius
    ∧ (renderMarker 0 exampleRow).radius ≤ 15 :=
  ⟨by simp [renderMap],
   (rendered_radius_props 0 [exampleRow] (renderMarker 0 exampleRow)
     (by simp [renderMap])).1.1,
   (rendered_radius_props 0 [exampleRow] (renderMarker 0 exampleRow)
     (by simp [renderMap])).1.2⟩

/-- C7: `icon_by_stage` maps a record to exactly one of four outcomes in
this decision order: "fire" if frp ≥ 50 or brightness ≥ 367; otherwise
"triangle-exclamation" if frp ≥ 10; otherwise "temperature-high" if
frp > 0 or brightness ≥ 330; otherwise no icon. -/
theorem icon_by_stage_decision (frp b : ℚ) :
    ((50 ≤ frp ∨ 367 ≤ b) → icon_by_stage frp b = some "fire")
    ∧ (¬(50 ≤ frp ∨ 367 ≤ b) → 10 ≤ frp →
        icon_by_stage frp b = some "triangle-exclamation")
    ∧ (¬(50 ≤ frp ∨ 367 ≤ b) → ¬10 ≤ frp → (0 < frp ∨ 330 ≤ b) →
        icon_by_stage frp b = some "temperature-high")
    ∧ (¬(50 ≤ frp ∨ 367 ≤ b) → ¬10 ≤ frp → ¬(0 < frp ∨ 330 ≤ b) →
        icon_by_stage frp b = none) := by
  refine ⟨?_, ?_, ?_, ?_⟩
  · intro h1; simp [icon_by_stage, h1]
  · intro h1 h2; simp [icon_by_stage, h1, h2]
  · intro h1 h2 h3; simp [icon_by_stage, h1, h2, h3]
  · intro h1 h2 h3; simp [icon_by_stage, h1, h2, h3]

theorem icon_by_stage_decision_witness :
    ((50 : ℚ) ≤ 60 ∨ (367 : ℚ) ≤ 0) ∧ icon_by_stage 60 0 = some "fire" :=
  ⟨by with_unfolding_all decide,
   (icon_by_stage_decision 60 0).1 (by with_unfolding_all decide)⟩

/-- C4: Two calls to the cached retrieval with the same parameter key
inside the refresh window, no manual refresh in between, return the
identical dataset and leave the cache state untouched; only the first
call runs the fetch, so exactly one upstream fetch happens in total. -/
theorem cache_idempotent {K D : Type} [DecidableEq K] (fetch : K → D)
    (ttl : ℚ) (st0 : CacheState K D) (k : K) (now now' : ℚ)
    (hfresh : cacheLookup st0 k = none) (hwin : now' - now < ttl) :
    (get_dataset fetch ttl (get_dataset fetch ttl st0 k now false).2 k now' false).1
        = (get_dataset fetch ttl st0 k now false).1
    ∧ (get_dataset fetch ttl (get_dataset fetch ttl st0 k now false).2 k now' false).2
        = (get_dataset fetch ttl st0 k now false).2
    ∧ (get_dataset fetch ttl st0 k now false).2.api_calls = st0.api_calls + 1
    ∧ (get_dataset fetch ttl st0 k now false).1 = fetch k := by
  have h1 : get_dataset fetch ttl st0 k now false =
      (fetch k, ⟨(k, now, fetch k) :: st0.entries.filter (fun e => decide (e.1 ≠ k)),
        st0.api_calls + 1⟩) := by
    simp [get_dataset, hfresh]
  have h2 : cacheLookup
      (⟨(k, now, fetch k) :: st0.entries.filter (fun e => decide (e.1 ≠ k)),
        st0.api_calls + 1⟩ : CacheState K D) k = some (now, fetch k) := by
    simp [cacheLookup, List.find?]
  rw [h1]
  simp only [get_dataset, h2]
  simp [hwin]

theorem cache_idempotent_witness :
    cacheLookup (⟨[], 0⟩ : CacheState ℕ (List ℕ)) 0 = none
    ∧ (600 : ℚ) - 0 < 1800
    ∧ (get_dataset (fun _ => [7]) 1800
        (get_dataset (fun _ => [7]) 1800 (⟨[], 0⟩ : CacheState ℕ (List ℕ)) 0 0 false).2
        0 600 false).1
        = (get_dataset (fun _ => [7]) 1800 (⟨[], 0⟩ : CacheState ℕ (List ℕ)) 0 0 false).1
    ∧ (get_dataset (fun _ => [7]) 1800 (⟨[], 0⟩ : CacheState ℕ (List ℕ)) 0 0 false).2.api_calls
        = 0 + 1 :=
  ⟨rfl, by with_unfolding_all decide,
   (cache_idempotent (fun _ => [7]) 1800 ⟨[], 0⟩ 0 0 600 rfl
     (by with_unfolding_all decide)).1,
   (cache_idempotent (fun _ => [7]) 1800 ⟨[], 0⟩ 0 0 600 rfl
     (by with_unfolding_all decide)).2.2.1⟩

/-- C5: Parsing a raw row with date "2024-07-01" and time "930" zero-pads
the time to "0930", parses strictly as `%Y-%m-%d %H%M` to the tz-aware
UTC timestamp 2024-07-01T09:30:00Z, and the derived local timestamp is
the Europe/Rome conversion for that date — CEST, +2h in July, so 11:30
local. -/
theorem parse_roundtrip_july :
    zfill 4 "930" = "0930"
    ∧ parse_acq_datetime "2024-07-01" "930" = some ⟨2024, 7, 1, 9, 30⟩
    ∧ isCEST ⟨2024, 7, 1, 9, 30⟩ = true
    ∧ tz_convert_rome ⟨2024, 7, 1, 9, 30⟩ = ⟨2024, 7, 1, 11, 30⟩
    ∧ normalize_row [("acq_date", "2024-07-01"), ("acq_time", "930")]
        = some (⟨2024, 7, 1, 9, 30⟩, ⟨2024, 7, 1, 11, 30⟩) := by
  refine ⟨rfl, by decide, by decide, by decide, by decide⟩

/-- C8: An empty fetched payload (no data rows) or a parsed response
lacking a required column (`acq_date` or `acq_time`) makes the retrieval
return an explicitly empty dataframe instead of raising, and the caller
treats an empty dataframe as terminal: it stops before rendering the map
body. -/
theorem empty_or_missing_schema (t : RawTable) (now : ℚ) :
    (t.rows = [] → get_firms_df t = Except.ok [])
    ∧ (t.columns.contains "acq_date" = false → get_firms_df t = Except.ok [])
    ∧ (t.columns.contains "acq_time" = false → get_firms_df t = Except.ok [])
    ∧ renderApp now [] = none := by
  refine ⟨?_, ?_, ?_, rfl⟩
  · intro h; simp [get_firms_df, h]
  · intro h
    have hm : required_cols_missing t.columns = true := by
      unfold required_cols_missing; rw [h]; rfl
    simp [get_firms_df, hm]
  · intro h
    have hm : required_cols_missing t.columns = true := by
      unfold required_cols_missing; rw [h]; simp
    simp [get_firms_df, hm]

theorem empty_or_missing_schema_witness :
    get_firms_df ⟨["latitude"], []⟩ = Except.ok []
    ∧ (RawTable.mk ["latitude"] [[("latitude", "37.5")]]).columns.contains "acq_date"
        = false
    ∧ get_firms_df ⟨["latitude"], [[("latitude", "37.5")]]⟩ = Except.ok [] :=
  ⟨(empty_or_missing_schema ⟨["latitude"], []⟩ 0).1 rfl,
   by decide,
   (empty_or_missing_schema ⟨["latitude"], [[("latitude", "37.5")]]⟩ 0).2.1
     (by decide)⟩

/-- C9 counterexample: the claim "per-record visual-attribute computation
never throws on missing numeric fields and clamps or defaults instead"
fails on the code: the applied radius computation indexes `row["frp"]`
first, so a record with no frp field raises `KeyError` (aborting the
rendering loop), and a NaN frp propagates to a NaN radius — neither
clamped nor defaulted. -/
theorem radius_missing_frp_raises :
    radius_by_intensity_series [("latitude", some 37.5), ("longitude", some 14)]
        = Except.error "KeyError: frp"
    ∧ radius_by_intensity_nan none = none
    ∧ radius_by_intensity_v1_nan (some 340.2) none (some 0.3812) (some 0.5921)
        = none :=
  ⟨rfl, rfl, rfl⟩

/-- C9 amended: on NaN numeric inputs the two icon classifiers never
throw and default (no icon; smallest icon size), and the radius
computations never throw but propagate NaN instead of clamping or
defaulting; a record lacking a numeric field altogether raises `KeyError`
(see the counterexample). -/
theorem visual_attrs_nan_behavior (frp bright scan track : NF) :
    (frp = none → bright = none → icon_by_stage_nan frp bright = none)
    ∧ (scan = none → icon_size_by_scan_track_nan scan track = (15, 15))
    ∧ (track = none → icon_size_by_scan_track_nan scan track = (15, 15))
    ∧ (frp = none → radius_by_intensity_nan frp = none)
    ∧ (frp = none → radius_by_intensity_v1_nan bright frp scan track = none) := by
  refine ⟨?_, ?_, ?_, ?_, ?_⟩
  · rintro rfl rfl; rfl
  · rintro rfl; cases track <;> rfl
  · rintro rfl; cases scan <;> rfl
  · rintro rfl; rfl
  · rintro rfl; cases bright <;> cases scan <;> cases track <;> rfl

/-- `roundHalfEven` below the midpoint rounds down. -/
theorem roundHalfEven_of_lt_half (q : ℚ) (f : ℤ) (h1 : (f : ℚ) ≤ q)
    (h2 : q - f < 1 / 2) : roundHalfEven q = f := by
  have hf : ⌊q⌋ = f := by
    rw [Int.floor_eq_iff]
    exact ⟨h1, by linarith⟩
  simp only [roundHalfEven]
  rw [hf, if_pos h2]

/-- `roundHalfEven` above the midpoint rounds up. -/
theorem roundHalfEven_of_gt_half (q : ℚ) (f : ℤ) (h1 : (f : ℚ) ≤ q)
    (h3 : q < f + 1) (h2 : 1 / 2 < q - f) : roundHalfEven q = f + 1 := by
  have hf : ⌊q⌋ = f := by
    rw [Int.floor_eq_iff]
    exact ⟨h1, h3⟩
  simp only [roundHalfEven]
  rw [hf, if_neg (by linarith), if_pos h2]

/-- `List.find?` returns the first element satisfying the predicate: the
returned element is in the list, satisfies the predicate, and every
earlier element fails it; `none` exactly when no element satisfies it. -/
theorem find?_first {α : Type} (p : α → Bool) (l : List α) :
    (∀ a, l.find? p = some a →
      ∃ i, ∃ h : i < l.length, l.get ⟨i, h⟩ = a ∧ p a = true
        ∧ ∀ j (hj : j < i), p (l.get ⟨j, Nat.lt_trans hj h⟩) = false)
    ∧ (l.find? p = none ↔ ∀ a ∈ l, p a = false) := by
  induction l with
  | nil =>
    exact ⟨fun a ha => by simp at ha, by simp⟩
  | cons x t ih =>
    cases hp : p x with
    | true =>
      constructor
      · intro a ha
        rw [List.find?_cons_of_pos _ hp] at ha
        obtain rfl : x = a := by injection ha
        exact ⟨0, by simp, rfl, hp, fun j hj => absurd hj (Nat.not_lt_zero j)⟩
      · rw [List.find?_cons_of_pos _ hp]
        exact ⟨fun h => Option.noConfusion h,
          fun hall => absurd (hall x (.head t)) (by simp [hp])⟩
    | false =>
      constructor
      · intro a ha
        rw [List.find?_cons_of_neg _ (by simp [hp])] at ha
        obtain ⟨i, h, hget, hpa, hearlier⟩ := ih.1 a ha
        refine ⟨i + 1, by simpa using Nat.succ_lt_succ h, by simpa using hget, hpa, ?_⟩
        intro j hj
        cases j with
        | zero => simpa using hp
        | succ j' =>
          have hj' : j' < i := Nat.lt_of_succ_lt_succ hj
          simpa using hearlier j' hj'
      · rw [List.find?_cons_of_neg _ (by simp [hp])]
        rw [ih.2]
        constructor
        · intro hall a ha
          rcases List.mem_cons.mp ha with rfl | hat
          · exact hp
          · exact hall a hat
        · intro hall a ha
          exact hall a (List.mem_cons_of_mem x ha)

/-- C6: The selection resolver rounds both the clicked coordinates and
every record's coordinates to 5 decimal places and returns the first
record (in dataset order) whose rounded coordinates equal the rounded
click coordinates, and no record when none matches.  Concretely: with a
record at (37.5, 14.0), a click at (37.500002, 13.999999) selects it and
a click at (37.501, 14.0) selects nothing. -/
theorem resolve_click_first_match (df : List HotspotRow) (la lo : ℚ) :
    (∀ r, resolve_click df la lo = some r →
      r ∈ df ∧ click_matches (round5 la) (round5 lo) r
        ∧ ∃ i, ∃ h : i < df.length, df.get ⟨i, h⟩ = r
            ∧ ∀ j (hj : j < i),
                ¬ click_matches (round5 la) (round5 lo) (df.get ⟨j, Nat.lt_trans hj h⟩))
    ∧ (resolve_click df la lo = none ↔
        ∀ r ∈ df, ¬ click_matches (round5 la) (round5 lo) r)
    ∧ resolve_click [exampleRow] 37.500002 13.999999 = some exampleRow
    ∧ resolve_click [exampleRow] 37.501 14 = none := by
  have r1 : round5 37.500002 = 37.5 := by
    unfold round5
    rw [roundHalfEven_of_lt_half (37.500002 * 100000) 3750000 (by norm_num)
      (by norm_num)]
    norm_num
  have r2 : round5 13.999999 = 14 := by
    unfold round5
    rw [roundHalfEven_of_gt_half (13.999999 * 100000) 1399999 (by norm_num)
      (by norm_num) (by norm_num)]
    norm_num
  have r3 : round5 37.5 = 37.5 := by
    unfold round5
    rw [roundHalfEven_of_lt_half (37.5 * 100000) 3750000 (by norm_num)
      (by norm_num)]
    norm_num
  have r4 : round5 14 = 14 := by
    unfold round5
    rw [roundHalfEven_of_lt_half ((14 : ℚ) * 100000) 1400000 (by norm_num)
      (by norm_num)]
    norm_num
  have r5 : round5 37.501 = 37.501 := by
    unfold round5
    rw [roundHalfEven_of_lt_half (37.501 * 100000) 3750100 (by norm_num)
      (by norm_num)]
    norm_num
  have hlat : exampleRow.latitude = (37.5 : ℚ) := rfl
  have hlon : exampleRow.longitude = (14 : ℚ) := rfl
  have hfind := find?_first
    (fun r => decide (click_matches (round5 la) (round5 lo) r)) df
  refine ⟨?_, ?_, ?_, ?_⟩
  · intro r hr
    have hr' : df.find?
        (fun r => decide (click_matches (round5 la) (round5 lo) r)) = some r := hr
    obtain ⟨i, h, hget, hpa, hearlier⟩ := hfind.1 r hr'
    refine ⟨List.mem_of_find?_eq_some hr', of_decide_eq_true hpa, i, h, hget, ?_⟩
    intro j hj
    exact of_decide_eq_false (hearlier j hj)
  · constructor
    · intro hn r hr
      exact of_decide_eq_false (hfind.2.mp hn r hr)
    · intro hall
      exact hfind.2.mpr fun r hr => decide_eq_false (hall r hr)
  · have hm : click_matches (round5 37.500002) (round5 13.999999) exampleRow := by
      constructor
      · rw [hlat, r3, r1]
      · rw [hlon, r4, r2]
    simp only [resolve_click]
    exact List.find?_cons_of_pos _ (decide_eq_true hm)
  · have hm : ¬ click_matches (round5 37.501) (round5 14) exampleRow := by
      intro h
      have h1 := h.1
      rw [hlat, r3, r5] at h1
      norm_num at h1
    simp only [resolve_click]
    rw [List.find?_cons_of_neg _ (by simp [hm])]
    rfl

theorem resolve_click_first_match_witness :
    resolve_click [exampleRow] 37.500002 13.999999 = some exampleRow
    ∧ exampleRow ∈ [exampleRow]
    ∧ click_matches (round5 37.500002) (round5 13.999999) exampleRow :=
  have hsome := (resolve_click_first_match [exampleRow] 37.500002 13.999999).2.2.1
  ⟨hsome,
   ((resolve_click_first_match [exampleRow] 37.500002 13.999999).1 exampleRow
     hsome).1,
   ((resolve_click_first_match [exampleRow] 37.500002 13.999999).1 exampleRow
     hsome).2.1⟩

theorem visual_attrs_nan_behavior_witness :
    (none : NF) = none
    ∧ icon_by_stage_nan none none = none
    ∧ icon_size_by_scan_track_nan none (some 0.5921) = (15, 15)
    ∧ radius_by_intensity_nan none = none :=
  ⟨rfl,
   (visual_attrs_nan_behavior none none none (some 0.5921)).1 rfl rfl,
   (visual_attrs_nan_behavior none none none (some 0.5921)).2.1 rfl,
   (visual_attrs_nan_behavior none none none (some 0.5921)).2.2.2.1 rfl⟩

theorem joinStr_cons (a : String) (t : List String) :
    joinStr (a :: t) = a ++ joinStr t := rfl

/-- A piece of a concatenation occurs in the concatenation. -/
theorem strContains_of_mem {s : String} {l : List String} (h : s ∈ l) :
    strContains (joinStr l) s := by
  induction l with
  | nil => cases h
  | cons a t ih =>
    rcases List.mem_cons.mp h with rfl | ht
    · exact ⟨"", joinStr t, by rw [joinStr_cons]; rfl⟩
    · obtain ⟨pre, suf, hp⟩ := ih ht
      exact ⟨a ++ pre, suf, by rw [joinStr_cons, hp]; simp [String.append_assoc]⟩

theorem leadsB_self_append (n s : List Char) : leadsB n (n ++ s) = true := by
  induction n with
  | nil => rfl
  | cons c cs ih => simp [leadsB, ih]

theorem containsSubB_append (p n s : List Char) :
    containsSubB n (p ++ n ++ s) = true := by
  induction p with
  | nil =>
    show containsSubB n (n ++ s) = true
    cases hn : n ++ s with
    | nil =>
      obtain ⟨rfl, rfl⟩ := List.append_eq_nil.mp hn
      rfl
    | cons c cs =>
      have hl := leadsB_self_append n s
      rw [hn] at hl
      simp [containsSubB, hl]
  | cons a p' ih =>
    show containsSubB n (a :: (p' ++ n ++ s)) = true
    have ih' : containsSubB n (p' ++ (n ++ s)) = true := by
      rw [← List.append_assoc]; exact ih
    simp [containsSubB, ih']

/-- Soundness of the executable substring check: a `strContains` witness
implies `strContainsB` evaluates to `true`. -/
theorem strContainsB_of_strContains {hay needle : String}
    (h : strContains hay needle) : strContainsB hay needle = true := by
  obtain ⟨p, s, rfl⟩ := h
  show containsSubB needle.data (p ++ needle ++ s).data = true
  rw [String.data_append, String.data_append]
  exact containsSubB_append p.data needle.data s.data

/-- C10 amended: the rendered tooltip contains the frp with one decimal
and the local time `HH:MM`; the popup contains the frp with one decimal,
the brightness, the satellite, the local timestamp `DD/MM HH:MM` and the
confidence; the scan and track with four decimals and the UTC timestamp
`YYYY-MM-DD HH:MM` appear only in the click-details sidebar projection;
no age-in-minutes text is rendered anywhere. -/
theorem rendered_text_fields (r : HotspotRow) :
    strContains (tooltipOf r) (fmt1 r.frp)
    ∧ strContains (tooltipOf r) (fmtHM r.acq_datetime_local)
    ∧ strContains (popupOf r) (fmt1 r.frp)
    ∧ strContains (popupOf r) (ratStr r.bright_ti4)
    ∧ strContains (popupOf r) r.satellite
    ∧ strContains (popupOf r) (fmtDMHM r.acq_datetime_local)
    ∧ strContains (popupOf r) r.confidence
    ∧ fmt4 r.scan ∈ (detailsOf r).map Prod.snd
    ∧ fmt4 r.track ∈ (detailsOf r).map Prod.snd
    ∧ fmtYMDHM r.acq_datetime_utc ∈ (detailsOf r).map Prod.snd
    ∧ fmtDMHM r.acq_datetime_local ∈ (detailsOf r).map Prod.snd := by
  refine ⟨?_, ?_, ?_, ?_, ?_, ?_, ?_, ?_, ?_, ?_, ?_⟩
  · exact strContains_of_mem (l := tooltipParts r) (by simp [tooltipParts])
  · exact strContains_of_mem (l := tooltipParts r) (by simp [tooltipParts])
  · exact strContains_of_mem (l := popupParts r) (by simp [popupParts])
  · exact strContains_of_mem (l := popupParts r) (by simp [popupParts])
  · exact strContains_of_mem (l := popupParts r) (by simp [popupParts])
  · exact strContains_of_mem (l := popupParts r) (by simp [popupParts])
  · exact strContains_of_mem (l := popupParts r) (by simp [popupParts])
  · simp [detailsOf]
  · simp [detailsOf]
  · simp [detailsOf]
  · simp [detailsOf]

/-- C10 counterexample: for the concrete `exampleRow`, neither the
tooltip nor the popup contains the UTC timestamp formatted
`YYYY-MM-DD HH:MM` or the scan footprint formatted with four decimals
(both appear only in the click-details sidebar), so the claimed
tooltip/popup content list fails on the code. -/
theorem tooltip_popup_lack_claimed_fields :
    ¬ strContains (tooltipOf exampleRow) (fmtYMDHM exampleRow.acq_datetime_utc)
    ∧ ¬ strContains (popupOf exampleRow) (fmtYMDHM exampleRow.acq_datetime_utc)
    ∧ ¬ strContains (tooltipOf exampleRow) (fmt4 exampleRow.scan)
    ∧ ¬ strContains (popupOf exampleRow) (fmt4 exampleRow.scan) := by
  refine ⟨fun h => ?_, fun h => ?_, fun h => ?_, fun h => ?_⟩ <;>
    exact absurd (strContainsB_of_strContains h) (by with_unfolding_all decide)

end FireApp
